import Mathlib

/-!
Shallow embedding of the `code-formatting` repository: the two Python
implementations `scripts/uncrustify/format.py` (procedural) and
`scripts/uncrustify/formatter.py` (class `Formatter`).

Modelling conventions:
* POSIX paths are `String`s; `Path.resolve` / `Path.as_posix` are modelled by
  explicit component splitting, dot-dot resolution and re-joining (no
  symlinks), exactly what `pathlib` does on a symlink-free tree.
* The filesystem walk (a recursive glob per extension followed by
  `Path.resolve`) is modelled by a `tree : List String` of the resolved posix
  paths of the entries under the search root, in traversal order; the glob by
  extension is a filter of that list, since a recursive star-dot-ext pattern
  matches exactly the entries whose path ends in that extension (the suffix
  contains no slash).
* The import-time glob of build directories under `../tests/` enumerates
  relative to the process working directory; its (cwd-dependent) result is
  the `tests_glob` field of `Env`.
* Side effects of a run are a `List Event` trace; the external tool's exit
  code is an input parameter (`toolExit`), since the tool is an opaque
  external collaborator.
-/

/-- Split a character list at slashes (helper for POSIX component splitting). -/
def splitSlashAux : List Char → List Char → List (List Char)
  | [], acc => [acc.reverse]
  | c :: rest, acc =>
    if c = '/' then acc.reverse :: splitSlashAux rest []
    else splitSlashAux rest (c :: acc)

/-- Non-empty slash-separated components of a path string. -/
def pathComps (s : String) : List String :=
  ((splitSlashAux s.toList []).map (fun l => String.mk l)).filter (fun c => c ≠ "")

/-- One step of POSIX path resolution: a single dot is dropped, a double dot
pops a component (at the root it stays at the root), anything else is
appended. -/
def resolveStep (acc : List String) (c : String) : List String :=
  if c = "." then acc
  else if c = ".." then acc.dropLast
  else acc ++ [c]

/-- Resolve dot and dot-dot components (what `Path.resolve` does on a
symlink-free filesystem). -/
def resolveComps (cs : List String) : List String :=
  cs.foldl resolveStep []

/-- Join components back into an absolute POSIX path string. -/
def joinComps : List String → String
  | [] => ""
  | c :: cs => "/" ++ c ++ joinComps cs

/-- Render a resolved component list as `Path.as_posix` renders an absolute
path (the empty list is the filesystem root). -/
def renderAbs (cs : List String) : String :=
  if cs = [] then "/" else joinComps cs

/-- Python string startswith: character-list prefix test. -/
def strStartsWith (s p : String) : Bool :=
  p.toList.isPrefixOf s.toList

/-- Extension-suffix test: character-list suffix test (via reversal). -/
def strEndsWith (s p : String) : Bool :=
  p.toList.reverse.isPrefixOf s.toList.reverse

/-- Model of `evaluate_relative_path` (identical in both files): join the
argument onto `PATH_OF_THIS_FILE` and resolve, rendered as a posix string.
`Path.joinpath` with an absolute second argument discards the base. -/
def evaluate_relative_path (path_of_this_file : String) (p : String) : String :=
  if strStartsWith p "/" then renderAbs (resolveComps (pathComps p))
  else renderAbs (resolveComps (pathComps (path_of_this_file ++ "/" ++ p)))

/-- The ambient process state the scripts depend on: the absolute directory of
the script itself (`PATH_OF_THIS_FILE`), and the result of the import-time
glob of build directories under `../tests/`, which `pathlib` enumerates
relative to the process's current working directory (so it is cwd-dependent
input). -/
structure Env where
  path_of_this_file : String
  tests_glob : List String
  deriving DecidableEq

/-- The literal `EXCLUDE_DIRECTORIES` entries (identical in both files),
as their posix string forms. -/
def STATIC_EXCLUDE_DIRECTORIES : List String :=
  ["../.git", "../bat", "../build", "../certs", "../docker",
   "../res", "../scripts", "../release", "../tiny-AES-c"]

/-- The `EXCLUDE_DIRECTORIES` list after the extend line: the static list
followed by the cwd-dependent glob results. -/
def EXCLUDE_DIRECTORIES (env : Env) : List String :=
  STATIC_EXCLUDE_DIRECTORIES ++ env.tests_glob

/-- The literal `EXCLUDE_FILES` entries (identical in both files). -/
def EXCLUDE_FILES : List String :=
  ["../src/foo.cpp", "../src/bar.h"]

/-- Model of `SEARCH_PATH` (identical in both files): the parent directory of
the script, resolved. -/
def SEARCH_PATH (env : Env) : String :=
  evaluate_relative_path env.path_of_this_file ".."

/-- The `CONFIG_PATH` of `format.py`: `uncrustify.cfg` next to the script. -/
def CONFIG_PATH (env : Env) : String :=
  evaluate_relative_path env.path_of_this_file "uncrustify.cfg"

/-- The `CONFIG_PATH` of `formatter.py`: `configs/uncrustify.cfg` under the
script's directory. -/
def Formatter_CONFIG_PATH (env : Env) : String :=
  evaluate_relative_path env.path_of_this_file "configs/uncrustify.cfg"

/-- The expected tool version identifier `UNCRUSTIFY_VERSION_TO_CHECK`
(a bytes literal, modelled as the corresponding character string). -/
def UNCRUSTIFY_VERSION_TO_CHECK : String := "Uncrustify-0.72.0_f"

/-- Model of `is_file_excluded` of `format.py`: the first loop returns true on
a raw string-prefix match of the file's posix path against a resolved excluded
directory, the second on exact equality with a resolved excluded file. -/
def is_file_excluded (env : Env) (file : String) : Bool :=
  (EXCLUDE_DIRECTORIES env).any
      (fun d => strStartsWith file (evaluate_relative_path env.path_of_this_file d))
  || EXCLUDE_FILES.any
      (fun f => file == evaluate_relative_path env.path_of_this_file f)

/-- Model of `Formatter._is_file_excluded` of `formatter.py` (textually the
same body as `is_file_excluded` of `format.py`). -/
def Formatter_is_file_excluded (env : Env) (file : String) : Bool :=
  (EXCLUDE_DIRECTORIES env).any
      (fun d => strStartsWith file (evaluate_relative_path env.path_of_this_file d))
  || EXCLUDE_FILES.any
      (fun f => file == evaluate_relative_path env.path_of_this_file f)

/-- The `itertools.chain` of the three globs in
`generate_list_of_files_to_format`: the `.cpp` matches under the search root,
then the `.c` matches, then the `.h` matches, each in traversal order.
`tree` is the list of resolved posix paths of the entries under the root. -/
def globChain (tree : List String) : List String :=
  tree.filter (fun p => strEndsWith p ".cpp")
    ++ tree.filter (fun p => strEndsWith p ".c")
    ++ tree.filter (fun p => strEndsWith p ".h")

/-- Model of `generate_list_of_files_to_format` of `format.py`: append every
chained glob entry whose `is_file_excluded` is false. -/
def generate_list_of_files_to_format (env : Env) (tree : List String) : List String :=
  (globChain tree).filter (fun f => !is_file_excluded env f)

/-- The attribute names the class `Formatter` actually defines. -/
def formatterMethods : List String :=
  ["_execute_command", "_is_file_excluded", "_generate_list_of_files_to_format",
   "_correct_uncrustify_version", "_format_cpp", "run"]

/-- Python attribute lookup on a `Formatter` instance: succeeds exactly on the
defined method names, otherwise raises `AttributeError`. -/
def formatterHasAttr (name : String) : Bool :=
  formatterMethods.contains name

/-- Error message of the `AttributeError` raised by the undefined
`self.is_file_excluded` lookup. -/
def attrErrorMsg : String :=
  "AttributeError: Formatter object has no attribute is_file_excluded"

/-- The loop body of `Formatter._generate_list_of_files_to_format`: each
iteration evaluates `self.is_file_excluded(file)`, whose attribute lookup
fails (only `_is_file_excluded` is defined), raising `AttributeError`. -/
def Formatter_generate_loop (env : Env) : List String → List String → Except String (List String)
  | [], acc => Except.ok acc.reverse
  | f :: fs, acc =>
    if formatterHasAttr "is_file_excluded" then
      if Formatter_is_file_excluded env f then Formatter_generate_loop env fs acc
      else Formatter_generate_loop env fs (f :: acc)
    else Except.error attrErrorMsg

/-- Model of `Formatter._generate_list_of_files_to_format` of `formatter.py`. -/
def Formatter_generate_list_of_files_to_format (env : Env) (tree : List String) :
    Except String (List String) :=
  Formatter_generate_loop env (globChain tree) []

/-- Observable side effects of a run. -/
inductive Event where
  | create (name : String) (content : String)
  | remove (name : String)
  | stdout (line : String)
  | execCmd (cmd : String)
  | exitProc (code : Int)
  deriving DecidableEq

/-- Is a character a CR or LF byte? -/
def isCRLF (c : Char) : Bool :=
  c = '\r' || c = '\n'

/-- Python bytes strip with CR and LF: drop leading and trailing CR/LF bytes. -/
def stripCRLFBytes (s : String) : String :=
  String.mk (((s.toList.dropWhile isCRLF).reverse.dropWhile isCRLF).reverse)

/-- Model of `correct_uncrustify_version` (identical in both files): the
stripped version output of the tool equals the expected identifier.
`versionOut` is the tool's reported output. -/
def correct_uncrustify_version (versionOut : String) : Bool :=
  stripCRLFBytes versionOut == UNCRUSTIFY_VERSION_TO_CHECK

/-- Model of `check_args` (identical in both files). -/
def check_args (check : Bool) : String :=
  if check then "--check" else "--replace --no-backup --if-changed"

/-- Model of `temp_file_name` (identical in both files). -/
def temp_file_name : String := "uncrustify_temp.txt"

/-- The command line `format.py` builds from its `CONFIG_PATH`, the
mode-dependent `check_args`, and the manifest name. -/
def uncrustify_command (env : Env) (check : Bool) : String :=
  "uncrustify -c " ++ CONFIG_PATH env ++ " " ++ check_args check
    ++ " -F " ++ temp_file_name

/-- The command line `formatter.py` builds (same shape, its own config path). -/
def Formatter_uncrustify_command (env : Env) (check : Bool) : String :=
  "uncrustify -c " ++ Formatter_CONFIG_PATH env ++ " " ++ check_args check
    ++ " -F " ++ temp_file_name

/-- Model of the comma-newline join used by the debug-file block of
`format.py`. -/
def joinCommaNewline : List String → String
  | [] => ""
  | [x] => x
  | x :: xs => x ++ ",\n" ++ joinCommaNewline xs

/-- Name of the file `format.py` opens at the top of `format_cpp`: the
current time formatted year-month-day-hour-minute-second plus a txt
extension; `ts` is the formatted timestamp without the extension. -/
def debug_file_name (ts : String) : String := ts ++ ".txt"

/-- Content `format_cpp` writes into the timestamped file: the joined
`EXCLUDE_DIRECTORIES`, a blank line, the joined `EXCLUDE_FILES`. -/
def debug_file_content (env : Env) : String :=
  joinCommaNewline (EXCLUDE_DIRECTORIES env) ++ "\n\n" ++ joinCommaNewline EXCLUDE_FILES

/-- Content of the manifest: each selected file's posix path plus newline. -/
def manifest_content (files : List String) : String :=
  String.join (files.map (fun f => f ++ "\n"))

/-- The version-mismatch warning printed by both files (an f-string
interpolating the expected-version bytes literal, whose repr carries a
leading b and quotes). -/
def warn_message : String :=
  "WARNING: You are using the wrong uncrustify version. Please install b\x27Uncrustify-0.72.0_f\x27"

/-- The failure notice printed when the external tool exits non-zero. -/
def fail_message (code : Int) : String :=
  "COMMAND FAILED (exit code: " ++ toString code ++ ")"

/-- Model of `format_cpp` of `format.py` as a trace: the events it performs,
and `some code` when it calls `exit(code)` (else it returns normally).
Inputs: the ambient `env`, the formatted timestamp `ts`, the tool's reported
version output, the `check` flag, the walked `tree`, and the external tool's
exit code `toolExit`. -/
def format_cpp (env : Env) (ts : String) (versionOut : String) (check : Bool)
    (tree : List String) (toolExit : Int) : List Event × Option Int :=
  let files := generate_list_of_files_to_format env tree
  let cmd := uncrustify_command env check
  ([Event.create (debug_file_name ts) (debug_file_content env)]
    ++ (if correct_uncrustify_version versionOut then [] else [Event.stdout warn_message])
    ++ [Event.create temp_file_name (manifest_content files),
        Event.stdout ("> " ++ cmd),
        Event.execCmd cmd,
        Event.remove temp_file_name]
    ++ (if toolExit ≠ 0 then [Event.stdout (fail_message toolExit), Event.exitProc toolExit] else []),
   if toolExit ≠ 0 then some toolExit else none)

/-- Model of the main block of `format.py`: run `format_cpp`; the process exit
code is the `exit` argument when it was called, else zero. -/
def format_main (env : Env) (ts : String) (versionOut : String) (check : Bool)
    (tree : List String) (toolExit : Int) : List Event × Int :=
  match format_cpp env ts versionOut check tree toolExit with
  | (evs, some code) => (evs, code)
  | (evs, none) => (evs, 0)

/-- Model of `Formatter._format_cpp` of `formatter.py` as a trace: events
performed, and either an error for an uncaught exception or
`Except.ok (some code)` / `Except.ok none` for an exit call / normal return. -/
def Formatter_format_cpp (env : Env) (versionOut : String) (check : Bool)
    (tree : List String) (toolExit : Int) : List Event × Except String (Option Int) :=
  let warnEvs :=
    if correct_uncrustify_version versionOut then [] else [Event.stdout warn_message]
  match Formatter_generate_list_of_files_to_format env tree with
  | Except.error msg => (warnEvs, Except.error msg)
  | Except.ok files =>
    let cmd := Formatter_uncrustify_command env check
    (warnEvs
      ++ [Event.create temp_file_name (manifest_content files),
          Event.stdout ("> " ++ cmd),
          Event.execCmd cmd,
          Event.remove temp_file_name]
      ++ (if toolExit ≠ 0 then [Event.stdout (fail_message toolExit), Event.exitProc toolExit] else []),
     Except.ok (if toolExit ≠ 0 then some toolExit else none))

/-- The argparse surface (one boolean store-true flag): `some check` on an
accepted argument vector, `none` when argparse rejects it. -/
def parse_args : List String → Option Bool
  | [] => some false
  | ["--check"] => some true
  | ["-c"] => some true
  | _ => none

/-- Model of `Formatter.run`: parse the arguments, then `_format_cpp` with the
parsed flag; `none` when argparse rejects the argument vector. -/
def Formatter_run (env : Env) (versionOut : String) (argv : List String)
    (tree : List String) (toolExit : Int) : Option (List Event × Except String (Option Int)) :=
  match parse_args argv with
  | none => none
  | some check => some (Formatter_format_cpp env versionOut check tree toolExit)

/-- The file names created during a trace. -/
def createdFiles (evs : List Event) : List String :=
  evs.filterMap (fun e => match e with | Event.create n _ => some n | _ => none)

/-- The file names removed during a trace. -/
def removedFiles (evs : List Event) : List String :=
  evs.filterMap (fun e => match e with | Event.remove n => some n | _ => none)

/-- The created files that were never removed: what the run leaves on disk. -/
def persistedFiles (evs : List Event) : List String :=
  (createdFiles evs).filter (fun n => !(removedFiles evs).contains n)

/-- A representative ambient state: the script sits in
`/repo/scripts/uncrustify` and the import-time glob found nothing. -/
def env₀ : Env := ⟨"/repo/scripts/uncrustify", []⟩

/-- The same script location, but the import-time glob (run from a different
working directory) found a build directory under `../tests/`. -/
def envGlob : Env := ⟨"/repo/scripts/uncrustify", ["../tests/unit/build"]⟩

/-- Two non-empty character lists that are both prefixes of the same list have
equal heads. -/
theorem isPrefixOf_head_eq {a b : Char} {as bs r : List Char}
    (h₁ : (a :: as).isPrefixOf r = true) (h₂ : (b :: bs).isPrefixOf r = true) : a = b := by
  cases r with
  | nil => simp [List.isPrefixOf] at h₁
  | cons x xs =>
    simp [List.isPrefixOf] at h₁ h₂
    exact h₁.1.trans h₂.1.symm

/-- Suffix tests for two suffixes with different final characters are mutually
exclusive. -/
theorem strEndsWith_disjoint {p : String} {a b : Char} {as bs : List Char} {sa sb : String}
    (ea : sa.toList.reverse = a :: as) (eb : sb.toList.reverse = b :: bs) (hab : a ≠ b)
    (h : strEndsWith p sa = true) : strEndsWith p sb = false := by
  by_contra hc
  rw [Bool.not_eq_false] at hc
  unfold strEndsWith at h hc
  rw [ea] at h
  rw [eb] at hc
  exact hab (isPrefixOf_head_eq h hc)

/-- A path ending in the cpp extension does not end in the c extension. -/
theorem ends_cpp_not_c {p : String} (h : strEndsWith p ".cpp" = true) :
    strEndsWith p ".c" = false :=
  @strEndsWith_disjoint p 'p' 'c' ['p','c','.'] ['.'] ".cpp" ".c" (by decide) (by decide) (by decide) h

/-- A path ending in the cpp extension does not end in the h extension. -/
theorem ends_cpp_not_h {p : String} (h : strEndsWith p ".cpp" = true) :
    strEndsWith p ".h" = false :=
  @strEndsWith_disjoint p 'p' 'h' ['p','c','.'] ['.'] ".cpp" ".h" (by decide) (by decide) (by decide) h

/-- A path ending in the c extension does not end in the cpp extension. -/
theorem ends_c_not_cpp {p : String} (h : strEndsWith p ".c" = true) :
    strEndsWith p ".cpp" = false :=
  @strEndsWith_disjoint p 'c' 'p' ['.'] ['p','c','.'] ".c" ".cpp" (by decide) (by decide) (by decide) h

/-- A path ending in the c extension does not end in the h extension. -/
theorem ends_c_not_h {p : String} (h : strEndsWith p ".c" = true) :
    strEndsWith p ".h" = false :=
  @strEndsWith_disjoint p 'c' 'h' ['.'] ['.'] ".c" ".h" (by decide) (by decide) (by decide) h

/-- A path ending in the h extension does not end in the cpp extension. -/
theorem ends_h_not_cpp {p : String} (h : strEndsWith p ".h" = true) :
    strEndsWith p ".cpp" = false :=
  @strEndsWith_disjoint p 'h' 'p' ['.'] ['p','c','.'] ".h" ".cpp" (by decide) (by decide) (by decide) h

/-- A path ending in the h extension does not end in the c extension. -/
theorem ends_h_not_c {p : String} (h : strEndsWith p ".h" = true) :
    strEndsWith p ".c" = false :=
  @strEndsWith_disjoint p 'h' 'c' ['.'] ['.'] ".h" ".c" (by decide) (by decide) (by decide) h

/-- Counting in a filtered duplicate-free list where the element passes the
filter gives one occurrence. -/
theorem count_chunk_pos {tree : List String} (hnd : tree.Nodup) {p : String} {q : String → Bool}
    (hmem : p ∈ tree) (hq : q p = true) : List.count p (tree.filter q) = 1 := by
  have hcf : List.count p (tree.filter q) = List.count p tree := List.count_filter hq
  rw [hcf]
  exact List.count_eq_one_of_mem hnd hmem

/-- Counting in a filtered list where the element fails the filter gives zero
occurrences. -/
theorem count_chunk_zero {tree : List String} {p : String} {q : String → Bool}
    (hq : q p = false) : List.count p (tree.filter q) = 0 := by
  apply List.count_eq_zero_of_not_mem
  intro hmem
  rw [List.mem_filter, hq] at hmem
  exact absurd hmem.2 (by simp)

/-- C3: the exclusion predicate holds for a file if and only if the file's
resolved posix path string starts with the resolved posix path of some
excluded directory (raw string-prefix match), or exactly equals the resolved
path of some excluded file. -/
theorem C3_exclusion_predicate (env : Env) (file : String) :
    is_file_excluded env file = true ↔
      ((∃ d ∈ EXCLUDE_DIRECTORIES env,
          strStartsWith file (evaluate_relative_path env.path_of_this_file d) = true) ∨
       (∃ f ∈ EXCLUDE_FILES, file = evaluate_relative_path env.path_of_this_file f)) := by
  simp [is_file_excluded, List.any_eq_true, Bool.or_eq_true, beq_iff_eq]

/-- C4: every file under the search root with extension cpp, c or h that is
not excluded appears exactly once in the candidate list (the walk yields no
duplicate paths), and no excluded file ever appears in the candidate list. -/
theorem C4_candidate_list (env : Env) (tree : List String) (hnd : tree.Nodup) (p : String) :
    ((p ∈ tree ∧
        (strEndsWith p ".cpp" = true ∨ strEndsWith p ".c" = true ∨ strEndsWith p ".h" = true) ∧
        is_file_excluded env p = false) →
      (generate_list_of_files_to_format env tree).count p = 1) ∧
    (is_file_excluded env p = true → p ∉ generate_list_of_files_to_format env tree) := by
  constructor
  · rintro ⟨hmem, hext, hexc⟩
    have hq : (fun f => !is_file_excluded env f) p = true := by simp [hexc]
    unfold generate_list_of_files_to_format
    have hcf : List.count p (List.filter (fun f => !is_file_excluded env f) (globChain tree))
        = List.count p (globChain tree) := List.count_filter hq
    rw [hcf]
    unfold globChain
    rw [List.count_append, List.count_append]
    rcases hext with hcpp | hc | hh
    · rw [count_chunk_pos hnd hmem hcpp,
        @count_chunk_zero tree p (fun s => strEndsWith s ".c") (ends_cpp_not_c hcpp),
        @count_chunk_zero tree p (fun s => strEndsWith s ".h") (ends_cpp_not_h hcpp)]
    · rw [@count_chunk_zero tree p (fun s => strEndsWith s ".cpp") (ends_c_not_cpp hc),
        count_chunk_pos hnd hmem hc,
        @count_chunk_zero tree p (fun s => strEndsWith s ".h") (ends_c_not_h hc)]
    · rw [@count_chunk_zero tree p (fun s => strEndsWith s ".cpp") (ends_h_not_cpp hh),
        @count_chunk_zero tree p (fun s => strEndsWith s ".c") (ends_h_not_c hh),
        count_chunk_pos hnd hmem hh]
  · intro hexc hmem
    unfold generate_list_of_files_to_format at hmem
    rw [List.mem_filter, hexc] at hmem
    exact absurd hmem.2 (by simp)

/-- Witness for C4 at a concrete tree: an included file is counted once and an
excluded file (under the resolved excluded directory for bat) is absent. -/
theorem C4_candidate_list_witness :
    (generate_list_of_files_to_format env₀
        ["/repo/a.cpp", "/repo/scripts/bat/b.cpp"]).count "/repo/a.cpp" = 1 ∧
    "/repo/scripts/bat/b.cpp" ∉
      generate_list_of_files_to_format env₀ ["/repo/a.cpp", "/repo/scripts/bat/b.cpp"] :=
  ⟨(C4_candidate_list env₀ ["/repo/a.cpp", "/repo/scripts/bat/b.cpp"] (by decide) "/repo/a.cpp").1
      ⟨by decide, Or.inl (by decide), by decide⟩,
   (C4_candidate_list env₀ ["/repo/a.cpp", "/repo/scripts/bat/b.cpp"] (by decide)
      "/repo/scripts/bat/b.cpp").2 (by decide)⟩

/-- C2: whenever the recursive walk yields at least one candidate entry,
`Formatter._generate_list_of_files_to_format` raises `AttributeError` (it
calls the undefined `self.is_file_excluded`), so `Formatter._format_cpp` (and
hence `Formatter.run`) propagates the exception and never reaches the
external-tool invocation: no exec event occurs in its trace. -/
theorem C2_formatter_attribute_error (env : Env) (tree : List String)
    (h : globChain tree ≠ []) :
    Formatter_generate_list_of_files_to_format env tree = Except.error attrErrorMsg ∧
    ∀ versionOut check toolExit,
      (Formatter_format_cpp env versionOut check tree toolExit).2 = Except.error attrErrorMsg ∧
      ∀ c, Event.execCmd c ∉ (Formatter_format_cpp env versionOut check tree toolExit).1 := by
  obtain ⟨f, fs, hfs⟩ := List.exists_cons_of_ne_nil h
  have hattr : formatterHasAttr "is_file_excluded" = false := by decide
  have hgen : Formatter_generate_list_of_files_to_format env tree = Except.error attrErrorMsg := by
    unfold Formatter_generate_list_of_files_to_format
    rw [hfs]
    simp [Formatter_generate_loop, hattr]
  refine ⟨hgen, fun versionOut check toolExit => ?_⟩
  unfold Formatter_format_cpp
  rw [hgen]
  by_cases hv : correct_uncrustify_version versionOut <;> simp [hv]

/-- Witness for C2 at a concrete non-empty tree. -/
theorem C2_formatter_attribute_error_witness :
    Formatter_generate_list_of_files_to_format env₀ ["/repo/a.cpp"] = Except.error attrErrorMsg ∧
    (Formatter_format_cpp env₀ "Uncrustify-0.72.0_f" false ["/repo/a.cpp"] 0).2 =
      Except.error attrErrorMsg :=
  ⟨(C2_formatter_attribute_error env₀ ["/repo/a.cpp"] (by decide)).1,
   ((C2_formatter_attribute_error env₀ ["/repo/a.cpp"] (by decide)).2
      "Uncrustify-0.72.0_f" false 0).1⟩

/-- C1 fails as stated: at a concrete state the two implementations build
different external-tool command lines (their config paths differ) and produce
different side-effect traces even on an empty tree. -/
theorem C1_counterexample :
    uncrustify_command env₀ false ≠ Formatter_uncrustify_command env₀ false ∧
    (format_cpp env₀ "2024-01-01-00-00-00" "Uncrustify-0.72.0_f" false [] 0).1 ≠
      (Formatter_format_cpp env₀ "Uncrustify-0.72.0_f" false [] 0).1 := by
  decide

/-- C1 amended: the two implementations share the exclusion predicate, but are
not behaviorally equivalent: they reference different configuration files,
`format.py` additionally leaves a timestamped debug file on disk, and
`formatter.py` raises `AttributeError` on any non-empty candidate chain. -/
theorem C1_amended_divergences :
    (∀ env file, is_file_excluded env file = Formatter_is_file_excluded env file) ∧
    CONFIG_PATH env₀ ≠ Formatter_CONFIG_PATH env₀ ∧
    debug_file_name "2024-01-01-00-00-00" ∈
      persistedFiles (format_cpp env₀ "2024-01-01-00-00-00" "Uncrustify-0.72.0_f" false [] 0).1 ∧
    (Formatter_format_cpp env₀ "Uncrustify-0.72.0_f" false ["/repo/a.cpp"] 0).2 =
      Except.error attrErrorMsg :=
  ⟨fun _ _ => rfl, by decide, by decide, by rfl⟩

/-- C5 fails as stated: at a concrete run, `format.py` creates the timestamped
debug file and never removes it, so not every created file is deleted before
process exit. -/
theorem C5_counterexample :
    debug_file_name "2024-01-01-00-00-00" ∈
      createdFiles (format_cpp env₀ "2024-01-01-00-00-00" "Uncrustify-0.72.0_f" false [] 0).1 ∧
    debug_file_name "2024-01-01-00-00-00" ∉
      removedFiles (format_cpp env₀ "2024-01-01-00-00-00" "Uncrustify-0.72.0_f" false [] 0).1 := by
  decide

/-- C5 amended: every run of `format_cpp` of `format.py` creates exactly two
files — the timestamped debug file and the manifest — and deletes only the
manifest, for every mode flag and tool outcome; the debug file persists. -/
theorem C5_amended_debug_file_persists (env : Env) (ts versionOut : String) (check : Bool)
    (tree : List String) (toolExit : Int) :
    createdFiles (format_cpp env ts versionOut check tree toolExit).1 =
      [debug_file_name ts, temp_file_name] ∧
    removedFiles (format_cpp env ts versionOut check tree toolExit).1 = [temp_file_name] := by
  by_cases hv : correct_uncrustify_version versionOut <;> by_cases h0 : toolExit = 0 <;>
    simp [format_cpp, createdFiles, removedFiles, hv, h0]

/-- C6: in every run that reaches the external-tool invocation, the manifest
removal immediately follows the invocation in the trace (so it happens for
zero and non-zero tool exit codes alike), and the manifest is not among the
files the run leaves on disk. -/
theorem C6_manifest_removed (env : Env) (ts versionOut : String) (check : Bool)
    (tree : List String) (toolExit : Int) :
    (∃ pre post,
        (format_cpp env ts versionOut check tree toolExit).1 =
          pre ++ Event.execCmd (uncrustify_command env check) ::
            Event.remove temp_file_name :: post) ∧
    temp_file_name ∉ persistedFiles (format_cpp env ts versionOut check tree toolExit).1 := by
  constructor
  · refine ⟨[Event.create (debug_file_name ts) (debug_file_content env)]
        ++ (if correct_uncrustify_version versionOut then [] else [Event.stdout warn_message])
        ++ [Event.create temp_file_name
              (manifest_content (generate_list_of_files_to_format env tree)),
            Event.stdout ("> " ++ uncrustify_command env check)],
      (if toolExit ≠ 0 then [Event.stdout (fail_message toolExit), Event.exitProc toolExit]
       else []), ?_⟩
    simp [format_cpp]
  · by_cases hv : correct_uncrustify_version versionOut <;> by_cases h0 : toolExit = 0 <;>
      simp [format_cpp, persistedFiles, createdFiles, removedFiles, hv, h0]

/-- C7: when the external tool exits non-zero the run prints the failure
notice and the process terminates with that same code; when the tool exits
zero `format_cpp` returns normally and the process exit code is zero. -/
theorem C7_exit_code_propagation (env : Env) (ts versionOut : String) (check : Bool)
    (tree : List String) (toolExit : Int) :
    (toolExit ≠ 0 →
      Event.stdout (fail_message toolExit) ∈ (format_main env ts versionOut check tree toolExit).1 ∧
      Event.exitProc toolExit ∈ (format_main env ts versionOut check tree toolExit).1 ∧
      (format_main env ts versionOut check tree toolExit).2 = toolExit) ∧
    (toolExit = 0 →
      (format_cpp env ts versionOut check tree toolExit).2 = none ∧
      (format_main env ts versionOut check tree toolExit).2 = 0) := by
  constructor
  · intro h
    by_cases hv : correct_uncrustify_version versionOut <;>
      simp [format_main, format_cpp, h, hv]
  · intro h
    by_cases hv : correct_uncrustify_version versionOut <;>
      simp [format_main, format_cpp, h, hv]

/-- Witness for C7 at concrete runs with tool exit codes two and zero. -/
theorem C7_exit_code_propagation_witness :
    (format_main env₀ "2024-01-01-00-00-00" "Uncrustify-0.72.0_f" false [] 2).2 = 2 ∧
    (format_main env₀ "2024-01-01-00-00-00" "Uncrustify-0.72.0_f" false [] 0).2 = 0 :=
  ⟨((C7_exit_code_propagation env₀ "2024-01-01-00-00-00" "Uncrustify-0.72.0_f" false [] 2).1
      (by decide)).2.2,
   ((C7_exit_code_propagation env₀ "2024-01-01-00-00-00" "Uncrustify-0.72.0_f" false [] 0).2
      (by decide)).2⟩

/-- C8: whenever the stripped reported version differs from the expected
identifier, the run prints the warning and still performs the formatting
invocation, and a version mismatch alone never yields a non-zero process
exit (with a zero tool exit code the process exits zero). -/
theorem C8_version_mismatch_nonfatal (env : Env) (ts versionOut : String) (check : Bool)
    (tree : List String) (toolExit : Int)
    (h : stripCRLFBytes versionOut ≠ UNCRUSTIFY_VERSION_TO_CHECK) :
    Event.stdout warn_message ∈ (format_cpp env ts versionOut check tree toolExit).1 ∧
    Event.execCmd (uncrustify_command env check) ∈
      (format_cpp env ts versionOut check tree toolExit).1 ∧
    (toolExit = 0 → (format_main env ts versionOut check tree toolExit).2 = 0) := by
  have hv : correct_uncrustify_version versionOut = false := by
    simp [correct_uncrustify_version]
    exact h
  refine ⟨?_, ?_, fun h0 => ?_⟩
  · simp [format_cpp, hv]
  · simp [format_cpp, hv]
  · simp [format_main, format_cpp, h0]

/-- Witness for C8 at a concrete mismatching version output. -/
theorem C8_version_mismatch_nonfatal_witness :
    Event.stdout warn_message ∈
      (format_cpp env₀ "2024-01-01-00-00-00" "Uncrustify-0.60.0" false [] 0).1 ∧
    (format_main env₀ "2024-01-01-00-00-00" "Uncrustify-0.60.0" false [] 0).2 = 0 :=
  ⟨(C8_version_mismatch_nonfatal env₀ "2024-01-01-00-00-00" "Uncrustify-0.60.0" false [] 0
      (by decide)).1,
   (C8_version_mismatch_nonfatal env₀ "2024-01-01-00-00-00" "Uncrustify-0.60.0" false [] 0
      (by decide)).2.2 (by decide)⟩

/-- C9: the CLI accepts one boolean flag (long or short form, absent means
rewrite mode, other arguments are rejected); with the flag the command line
carries the read-only check option, without it the in-place replace,
no-backup and if-changed options. -/
theorem C9_cli_mode_flags (env : Env) :
    parse_args [] = some false ∧ parse_args ["--check"] = some true ∧
    parse_args ["-c"] = some true ∧ parse_args ["--verbose"] = none ∧
    uncrustify_command env true =
      "uncrustify -c " ++ CONFIG_PATH env ++ " --check -F uncrustify_temp.txt" ∧
    uncrustify_command env false =
      "uncrustify -c " ++ CONFIG_PATH env ++
        " --replace --no-backup --if-changed -F uncrustify_temp.txt" := by
  refine ⟨rfl, rfl, rfl, rfl, ?_, ?_⟩ <;>
    simp only [uncrustify_command, check_args, temp_file_name, String.append_assoc] <;> rfl

/-- C10: with the same script location and the same project tree, two runs
whose import-time glob (which enumerates relative to the working directory)
returned different results compute different exclusion sets and different
candidate file lists. -/
theorem C10_cwd_dependence :
    env₀.path_of_this_file = envGlob.path_of_this_file ∧
    EXCLUDE_DIRECTORIES env₀ ≠ EXCLUDE_DIRECTORIES envGlob ∧
    generate_list_of_files_to_format env₀ ["/repo/scripts/tests/unit/build/gen.cpp"] ≠
      generate_list_of_files_to_format envGlob ["/repo/scripts/tests/unit/build/gen.cpp"] := by
  decide
